import Mathlib

/-!
Verification of the `ntfs` crate's error taxonomy (`src/error.rs`) and of the
decoding engine the taxonomy serves (fixup verification, attribute lookup,
data-run decoding, structured-value access, index-record validation).

The error type and its three `From` conversions are embedded directly from
`src/error.rs`.  The decoding components themselves are not part of the
visible sources, so they are modelled from the specification; each such
definition is marked `Modelled from the spec:` in its doc comment.

Machine integers are modelled as follows: `u64`/`u32`/`u8`/`usize` fields
become `Nat`, the signed `Vcn`/`Lcn` newtypes (signed 64-bit in the spec)
become `Int`, byte strings become `List Nat`.
-/

namespace NtfsSpec

/-- Modelled from the spec: the attribute type-code enumeration
(`NtfsAttributeType` from `src/attribute.rs`, not in the visible sources).
The spec names "file name, data, index root/allocation, standard
information, etc."; only the named members are modelled. -/
inductive NtfsAttributeType where
  | StandardInformation
  | FileName
  | Data
  | IndexRoot
  | IndexAllocation
  deriving DecidableEq, Repr

/-- Modelled from the external `binread::io` crate: the error-kind
enumeration of a `binread::io::Error`.  Only the members this development
touches are modelled (`Other` is the kind used by
`From<NtfsError> for binread::io::Error`). -/
inductive IoErrorKind where
  | NotFound
  | UnexpectedEof
  | Other
  deriving DecidableEq, Repr

mutual

/-- The central error type of ntfs — `enum NtfsError`, `src/error.rs`
lines 12–93.  Variants and their fields are in source order; `u64` byte
positions and the unsigned size fields become `Nat`, `Vcn`/`Lcn` become
`Int`, `&'static [u8]` expected signatures and fixed byte arrays become
`List Nat`, and `i8 size_info` becomes `Int`. -/
inductive NtfsError where
  | AttributeNotFound (position : Nat) (ty : NtfsAttributeType)
  | BufferTooSmall (expected : Nat) (actual : Nat)
  | InvalidByteCountInDataRunHeader (position : Nat) (expected : Nat) (actual : Nat)
  | InvalidClusterCount (cluster_count : Nat)
  | InvalidNtfsFile (n : Nat)
  | InvalidNtfsFileSignature (position : Nat) (expected : List Nat) (actual : List Nat)
  | InvalidNtfsIndexSignature (position : Nat) (expected : List Nat) (actual : List Nat)
  | InvalidNtfsIndexSize (position : Nat) (expected : Nat) (actual : Nat)
  | InvalidNtfsTime
  | InvalidRecordSizeInfo (size_info : Int) (cluster_size : Nat)
  | InvalidStructuredValueSize (position : Nat) (ty : NtfsAttributeType)
      (expected : Nat) (actual : Nat)
  | InvalidTwoByteSignature (position : Nat) (expected : List Nat) (actual : List Nat)
  | InvalidVcnInDataRunHeader (position : Nat) (vcn : Int) (previous_lcn : Int)
  | Io (error : IoError)
  | LcnTooBig (lcn : Int)
  | UnsupportedClusterSize (expected : Nat) (actual : Nat)
  | UnsupportedNtfsAttributeType (position : Nat) (actual : Nat)
  | UnsupportedNtfsFileNamespace (position : Nat) (actual : Nat)
  | UnsupportedStructuredValue (position : Nat) (ty : NtfsAttributeType)
  | VcnMismatch (requested_vcn : Int) (record_vcn : Int)
  | VcnTooBig (vcn : Int)

/-- Modelled from the external `binread::io` crate: a `binread::io::Error`
either originates in the storage medium (`base`, carrying its kind and a
raw OS code) or was built by `Error::new(kind, payload)` around an
`NtfsError` payload, as done by `From<NtfsError> for binread::io::Error`. -/
inductive IoError where
  | base (kind : IoErrorKind) (code : Nat)
  | wrapped (kind : IoErrorKind) (payload : NtfsError)

end

deriving instance DecidableEq for NtfsError

deriving instance DecidableEq for IoError

/-- Modelled from the external `binread` crate: `binread::error::Error`.
The `Io` variant carries a `binread::io::Error`; the remaining variants
(bad magic, failed assertion, custom, no variant match, enum errors) are
decoding-level errors whose payloads are irrelevant here and are modelled
by their byte position only. -/
inductive BinreadError where
  | Io (error : IoError)
  | BadMagic (pos : Nat)
  | AssertFail (pos : Nat)
  | Custom (pos : Nat)
  | NoVariantMatch (pos : Nat)
  | EnumErrors (pos : Nat)
  deriving DecidableEq

/-- `impl From<binread::error::Error> for NtfsError`, `src/error.rs`
lines 95–104: an `Io` binread error becomes `NtfsError::Io`; every other
variant hits `unreachable!` — a panic, modelled as `none`. -/
def ntfsErrorFromBinread : BinreadError → Option NtfsError
  | .Io io_error => some (.Io io_error)
  | _ => none

/-- `impl From<binread::io::Error> for NtfsError`, `src/error.rs`
lines 106–110: wrap the I/O error as `Self::Io(error)`. -/
def ntfsErrorFromIo (error : IoError) : NtfsError :=
  .Io error

/-- `impl From<NtfsError> for binread::io::Error`, `src/error.rs`
lines 114–122: an `NtfsError::Io` gives back its inner I/O error; any
other error is wrapped via `binread::io::Error::new(ErrorKind::Other, error)`. -/
def ioErrorFromNtfs : NtfsError → IoError
  | .Io io_error => io_error
  | error => .wrapped .Other error

/-- The `position` field of an `NtfsError` variant, for the variants of
`src/error.rs` that declare one; `none` for the variants without a
`position` field. -/
def NtfsError.position? : NtfsError → Option Nat
  | .AttributeNotFound position _ => some position
  | .InvalidByteCountInDataRunHeader position _ _ => some position
  | .InvalidNtfsFileSignature position _ _ => some position
  | .InvalidNtfsIndexSignature position _ _ => some position
  | .InvalidNtfsIndexSize position _ _ => some position
  | .InvalidStructuredValueSize position _ _ _ => some position
  | .InvalidTwoByteSignature position _ _ => some position
  | .InvalidVcnInDataRunHeader position _ _ => some position
  | .UnsupportedNtfsAttributeType position _ => some position
  | .UnsupportedNtfsFileNamespace position _ => some position
  | .UnsupportedStructuredValue position _ => some position
  | _ => none

/-- Whether an `NtfsError` variant of `src/error.rs` declares both an
`expected` and an `actual` field. -/
def NtfsError.carriesExpectedActual : NtfsError → Bool
  | .BufferTooSmall _ _ => true
  | .InvalidByteCountInDataRunHeader _ _ _ => true
  | .InvalidNtfsFileSignature _ _ _ => true
  | .InvalidNtfsIndexSignature _ _ _ => true
  | .InvalidNtfsIndexSize _ _ _ => true
  | .InvalidStructuredValueSize _ _ _ _ => true
  | .InvalidTwoByteSignature _ _ _ => true
  | .UnsupportedClusterSize _ _ => true
  | _ => false

/-- The `requested_vcn` field of `NtfsError::VcnMismatch`, `none` on every
other variant. -/
def NtfsError.requestedVcn? : NtfsError → Option Int
  | .VcnMismatch requested_vcn _ => some requested_vcn
  | _ => none

/-- The `record_vcn` field of `NtfsError::VcnMismatch`, `none` on every
other variant. -/
def NtfsError.recordVcn? : NtfsError → Option Int
  | .VcnMismatch _ record_vcn => some record_vcn
  | _ => none

/-- The expected attribute type (`ty` field) of
`NtfsError::AttributeNotFound`, `none` on every other variant. -/
def NtfsError.notFoundType? : NtfsError → Option NtfsAttributeType
  | .AttributeNotFound _ ty => some ty
  | _ => none

/-- Modelled from the spec: read `width` bytes little-endian as an unsigned
integer, starting at byte index `pos` of `bytes`; `none` when the range is
not fully inside the buffer (the decoder never reads out of bounds). -/
def readUnsigned (bytes : List Nat) (pos : Nat) : Nat → Option Nat
  | 0 => some 0
  | Nat.succ w =>
    match bytes[pos]?, readUnsigned bytes (pos + 1) w with
    | some b, some rest => some (b + 256 * rest)
    | _, _ => none

/-- Modelled from the spec: the explicit widen-and-sign-extend routine,
parameterized by the byte count, that interprets a `width`-byte unsigned
value as a signed quantity (two's complement). -/
def signExtend (v : Nat) (width : Nat) : Int :=
  if width = 0 then 0
  else if v < 2 ^ (8 * width - 1) then (v : Int)
  else (v : Int) - 2 ^ (8 * width)

/-- Modelled from the spec: one data run — either sparse (no physical
backing) or allocated starting at an absolute LCN — together with its
length in clusters. -/
inductive DataRun where
  | sparse (length_in_clusters : Nat)
  | allocated (lcn : Int) (length_in_clusters : Nat)
  deriving DecidableEq, Repr

/-- Modelled from the spec: accumulate the signed LCN delta (read as a
`Vcn`-typed value `vcn`) of an allocated data run onto the running LCN.
If the sum would be negative the step fails with "VCN cannot be added to
previous LCN" (carrying the offending VCN, the previous LCN and the byte
position of the run header); if it would exceed the volume's maximum
representable LCN `maxLcn` the step fails with "LCN too big". -/
def addLcnDelta (pos : Nat) (vcn : Int) (previousLcn : Int) (maxLcn : Int) :
    Except NtfsError Int :=
  let newLcn := previousLcn + vcn
  if newLcn < 0 then .error (.InvalidVcnInDataRunHeader pos vcn previousLcn)
  else if maxLcn < newLcn then .error (.LcnTooBig newLcn)
  else .ok newLcn

/-- Modelled from the spec: decode one data run whose header byte sits at
byte index `pos` of `bytes`.  The header's low nibble is the byte width of
the run-length field, its high nibble the byte width of the signed
LCN-delta field; a zero header terminates the list (`ok none`).  A width
larger than 8 fails with "invalid byte count in data run header" (expected
maximum 8, the actual width, the header's byte position) before any field
byte is read.  A delta width of 0 yields a sparse run leaving the running
LCN unchanged; otherwise the delta is sign-extended and accumulated via
`addLcnDelta`.  On success returns the run, the byte position just past
this run, and the new running LCN. -/
def decodeDataRunHeader (bytes : List Nat) (pos : Nat) (previousLcn : Int)
    (maxLcn : Int) : Except NtfsError (Option (DataRun × Nat × Int)) :=
  match bytes[pos]? with
  | none => .error (.BufferTooSmall (pos + 1) bytes.length)
  | some header =>
    if header = 0 then .ok none
    else
      let lengthWidth := header % 16
      let deltaWidth := header / 16 % 16
      if 8 < lengthWidth then
        .error (.InvalidByteCountInDataRunHeader pos 8 lengthWidth)
      else if 8 < deltaWidth then
        .error (.InvalidByteCountInDataRunHeader pos 8 deltaWidth)
      else
        match readUnsigned bytes (pos + 1) lengthWidth with
        | none => .error (.BufferTooSmall (pos + 1 + lengthWidth) bytes.length)
        | some runLength =>
          if deltaWidth = 0 then
            .ok (some (.sparse runLength, pos + 1 + lengthWidth, previousLcn))
          else
            match readUnsigned bytes (pos + 1 + lengthWidth) deltaWidth with
            | none =>
              .error (.BufferTooSmall (pos + 1 + lengthWidth + deltaWidth) bytes.length)
            | some raw =>
              let vcn := signExtend raw deltaWidth
              match addLcnDelta pos vcn previousLcn maxLcn with
              | .error e => .error e
              | .ok newLcn =>
                .ok (some (.allocated newLcn runLength,
                  pos + 1 + lengthWidth + deltaWidth, newLcn))

/-- Modelled from the spec: decode a whole run list by iterating
`decodeDataRunHeader`, accumulating the running VCN (failing with
"VCN too big" if it would exceed `maxVcn`) and the running LCN, stopping
at the zero terminator.  `fuel` bounds the number of runs (decoding always
terminates after consuming a bounded byte range). -/
def decodeDataRuns (bytes : List Nat) (maxLcn : Int) (maxVcn : Int) :
    Nat → Nat → Int → Int → Except NtfsError (List DataRun)
  | 0, _, _, _ => .error (.BufferTooSmall (bytes.length + 1) bytes.length)
  | Nat.succ fuel, pos, previousLcn, previousVcn =>
    match decodeDataRunHeader bytes pos previousLcn maxLcn with
    | .error e => .error e
    | .ok none => .ok []
    | .ok (some (run, nextPos, newLcn)) =>
      let runLength : Nat :=
        match run with
        | .sparse l => l
        | .allocated _ l => l
      let newVcn := previousVcn + (runLength : Int)
      if maxVcn < newVcn then .error (.VcnTooBig newVcn)
      else
        match decodeDataRuns bytes maxLcn maxVcn fuel nextPos newLcn newVcn with
        | .error e => .error e
        | .ok runs => .ok (run :: runs)

/-- Modelled from the spec: the last two bytes of sector `i` of a record
buffer, given the volume's sector size; `none` when the sector does not
lie fully inside the buffer. -/
def sectorLastTwo (buffer : List Nat) (sectorSize : Nat) (i : Nat) :
    Option (Nat × Nat) :=
  match buffer[(i + 1) * sectorSize - 2]?, buffer[(i + 1) * sectorSize - 1]? with
  | some a, some b => some (a, b)
  | _, _ => none

/-- Modelled from the spec: the verification pass of the Fixup Verifier.
Starting at sector `start`, check `n` sectors: each sector's last two
bytes must equal the record's update sequence number `usn`; any mismatch
fails with the two-byte-signature-mismatch error reporting the expected
bytes, the two bytes actually found, and the byte offset of the mismatch. -/
def verifyFixupLoop (buffer : List Nat) (usn : Nat × Nat) (sectorSize : Nat) :
    Nat → Nat → Except NtfsError Unit
  | _, 0 => .ok ()
  | start, Nat.succ n =>
    match sectorLastTwo buffer sectorSize start with
    | none => .error (.BufferTooSmall ((start + 1) * sectorSize) buffer.length)
    | some ab =>
      if ab = usn then verifyFixupLoop buffer usn sectorSize (start + 1) n
      else
        .error (.InvalidTwoByteSignature ((start + 1) * sectorSize - 2)
          [usn.1, usn.2] [ab.1, ab.2])

/-- Modelled from the spec: overwrite the last two bytes of sector `i`
with the saved original bytes `orig` from the update sequence array. -/
def applySingleFixup (buffer : List Nat) (sectorSize : Nat) (i : Nat)
    (orig : Nat × Nat) : List Nat :=
  (buffer.set ((i + 1) * sectorSize - 2) orig.1).set ((i + 1) * sectorSize - 1) orig.2

/-- Modelled from the spec: the repair pass — restore the saved original
bytes of sectors `0 .. count-1` from the update sequence array `usa`. -/
def repairFixups (buffer : List Nat) (usa : List (Nat × Nat)) (sectorSize : Nat) :
    Nat → List Nat
  | 0 => buffer
  | Nat.succ n =>
    applySingleFixup (repairFixups buffer usa sectorSize n) sectorSize n
      (usa.getD n (0, 0))

/-- Modelled from the spec: the Fixup Verifier — verify every sector's
two-byte signature against `usn` and, only when all `count` sectors match,
repair the buffer by restoring the saved original bytes; verification is
all-or-nothing and a partial repair is never exposed. -/
def applyFixups (buffer : List Nat) (usn : Nat × Nat) (usa : List (Nat × Nat))
    (sectorSize : Nat) (count : Nat) : Except NtfsError (List Nat) :=
  match verifyFixupLoop buffer usn sectorSize 0 count with
  | .error e => .error e
  | .ok _ => .ok (repairFixups buffer usa sectorSize count)

/-- Modelled from the spec: the tagged resident / non-resident union of an
attribute's value representation — either an inline byte range, or the
non-resident metadata (starting VCN, last VCN, and the decoded data runs). -/
inductive NtfsAttributeContent where
  | resident (value : List Nat)
  | nonResident (start_vcn : Int) (last_vcn : Int) (runs : List DataRun)
  deriving DecidableEq

/-- Modelled from the spec: an attribute descriptor produced by the
Attribute Decoder — its type code and its resident / non-resident content. -/
structure NtfsAttribute where
  ty : NtfsAttributeType
  content : NtfsAttributeContent
  deriving DecidableEq

/-- Modelled from the spec: the lookup-by-type operation — scan the
record's attribute sequence for the first attribute of type `ty`, and fail
with "attribute not found" (carrying the expected type and the record's
byte position) when the sequence is exhausted without a match. -/
def findAttributeByType (recordPosition : Nat) (attributes : List NtfsAttribute)
    (ty : NtfsAttributeType) : Except NtfsError NtfsAttribute :=
  match attributes with
  | [] => .error (.AttributeNotFound recordPosition ty)
  | a :: rest =>
    if a.ty = ty then .ok a
    else findAttributeByType recordPosition rest ty

/-- Modelled from the spec: the typed structured-value accessor for a type
whose structured representation has the fixed size `expected` — it
validates the value region's byte length against that size and fails with
the size-mismatch error carrying the expected and actual lengths when they
differ. -/
def getStructuredValue (position : Nat) (ty : NtfsAttributeType)
    (expected : Nat) (value : List Nat) : Except NtfsError (List Nat) :=
  if value.length = expected then .ok value
  else .error (.InvalidStructuredValueSize position ty expected value.length)

/-- Modelled from the spec: the expected 4-byte index-record magic
(`INDX`). -/
def indexRecordSignature : List Nat := [73, 78, 68, 88]

/-- Modelled from the spec: the Index Record Validator header checks — the
4-byte signature must equal the index-record magic, else "invalid index
signature"; the declared allocated size must not exceed the physical
capacity available to the index record (`maximumSize`: record size or
cluster size), else "invalid index size" (expected maximum, actual
declared size, byte position of the record). -/
def validateIndexRecordHeader (position : Nat) (signature : List Nat)
    (maximumSize : Nat) (allocatedSize : Nat) : Except NtfsError Unit :=
  if signature = indexRecordSignature then
    if maximumSize < allocatedSize then
      .error (.InvalidNtfsIndexSize position maximumSize allocatedSize)
    else .ok ()
  else .error (.InvalidNtfsIndexSignature position indexRecordSignature signature)

/-- C1 (counterexample): the claim that every variant of `NtfsError`
carries a byte position and expected-vs-actual fields fails at the
concrete variant `InvalidNtfsTime`, which carries neither (it has no
fields at all). -/
theorem error_context_counterexample :
    ¬ ((NtfsError.position? NtfsError.InvalidNtfsTime).isSome = true ∧
       NtfsError.carriesExpectedActual NtfsError.InvalidNtfsTime = true) := by
  decide

/-- C1 (amended): the positional decode-failure variants of `NtfsError`
each carry their byte position as a structured field, and the
comparison variants each carry both an `expected` and an `actual` field;
but not every variant carries them — `InvalidNtfsTime` carries neither. -/
theorem error_context_field_coverage :
    (∀ p ty, (NtfsError.AttributeNotFound p ty).position? = some p) ∧
    (∀ p e a, (NtfsError.InvalidByteCountInDataRunHeader p e a).position? = some p ∧
      (NtfsError.InvalidByteCountInDataRunHeader p e a).carriesExpectedActual = true) ∧
    (∀ p e a, (NtfsError.InvalidNtfsFileSignature p e a).position? = some p ∧
      (NtfsError.InvalidNtfsFileSignature p e a).carriesExpectedActual = true) ∧
    (∀ p e a, (NtfsError.InvalidNtfsIndexSignature p e a).position? = some p ∧
      (NtfsError.InvalidNtfsIndexSignature p e a).carriesExpectedActual = true) ∧
    (∀ p e a, (NtfsError.InvalidNtfsIndexSize p e a).position? = some p ∧
      (NtfsError.InvalidNtfsIndexSize p e a).carriesExpectedActual = true) ∧
    (∀ p ty e a, (NtfsError.InvalidStructuredValueSize p ty e a).position? = some p ∧
      (NtfsError.InvalidStructuredValueSize p ty e a).carriesExpectedActual = true) ∧
    (∀ p e a, (NtfsError.InvalidTwoByteSignature p e a).position? = some p ∧
      (NtfsError.InvalidTwoByteSignature p e a).carriesExpectedActual = true) ∧
    (∀ p v l, (NtfsError.InvalidVcnInDataRunHeader p v l).position? = some p) ∧
    (∀ p a, (NtfsError.UnsupportedNtfsAttributeType p a).position? = some p) ∧
    (∀ p a, (NtfsError.UnsupportedNtfsFileNamespace p a).position? = some p) ∧
    (∀ p ty, (NtfsError.UnsupportedStructuredValue p ty).position? = some p) ∧
    (∀ e a, (NtfsError.BufferTooSmall e a).carriesExpectedActual = true) ∧
    (∀ e a, (NtfsError.UnsupportedClusterSize e a).carriesExpectedActual = true) ∧
    NtfsError.position? NtfsError.InvalidNtfsTime = none ∧
    NtfsError.carriesExpectedActual NtfsError.InvalidNtfsTime = false :=
  ⟨fun _ _ => rfl, fun _ _ _ => ⟨rfl, rfl⟩, fun _ _ _ => ⟨rfl, rfl⟩,
   fun _ _ _ => ⟨rfl, rfl⟩, fun _ _ _ => ⟨rfl, rfl⟩, fun _ _ _ _ => ⟨rfl, rfl⟩,
   fun _ _ _ => ⟨rfl, rfl⟩, fun _ _ _ => rfl, fun _ _ => rfl, fun _ _ => rfl,
   fun _ _ => rfl, fun _ _ => rfl, fun _ _ => rfl, rfl, rfl⟩

/-- C2: wrapping a storage-source I/O error produces exactly the `Io`
kind holding the error unchanged, and converting that `Io`-kind library
error back to an I/O error returns the original error itself — the I/O
error round-trips and is never reinterpreted as a different kind
(`src/error.rs` lines 106–110 and 114–122). -/
theorem io_error_roundtrip :
    ∀ e : IoError, ntfsErrorFromIo e = NtfsError.Io e ∧
      ioErrorFromNtfs (ntfsErrorFromIo e) = e :=
  fun _ => ⟨rfl, rfl⟩

/-- C3: `VcnMismatch` and `AttributeNotFound` are two separate variants of
`NtfsError` (never equal as values), the mismatch variant carries the
requested VCN and the record's VCN, and the not-found variant carries the
expected attribute type and the record's byte position. -/
theorem vcn_mismatch_distinct_from_not_found :
    (∀ r v p ty, NtfsError.VcnMismatch r v ≠ NtfsError.AttributeNotFound p ty) ∧
    (∀ r v, (NtfsError.VcnMismatch r v).requestedVcn? = some r ∧
      (NtfsError.VcnMismatch r v).recordVcn? = some v) ∧
    (∀ p ty, (NtfsError.AttributeNotFound p ty).notFoundType? = some ty ∧
      (NtfsError.AttributeNotFound p ty).position? = some p) :=
  ⟨fun _ _ _ _ h => NtfsError.noConfusion h,
   fun _ _ => ⟨rfl, rfl⟩, fun _ _ => ⟨rfl, rfl⟩⟩

/-- C3 (witness): the distinctness and the field accessors at concrete
values. -/
theorem vcn_mismatch_distinct_from_not_found_witness :
    NtfsError.VcnMismatch 3 7 ≠ NtfsError.AttributeNotFound 0 NtfsAttributeType.Data ∧
    (NtfsError.VcnMismatch 3 7).requestedVcn? = some 3 ∧
    (NtfsError.AttributeNotFound 0 NtfsAttributeType.Data).notFoundType? =
      some NtfsAttributeType.Data :=
  ⟨vcn_mismatch_distinct_from_not_found.1 3 7 0 NtfsAttributeType.Data,
   (vcn_mismatch_distinct_from_not_found.2.1 3 7).1,
   (vcn_mismatch_distinct_from_not_found.2.2 0 NtfsAttributeType.Data).1⟩

/-- C10: the conversion from a `binread` decoding error is total only on
the `Io` variant — an I/O binread error becomes the `Io` kind, and every
other binread error variant hits the `unreachable!` panic (modelled as
`none`) instead of returning a value (`src/error.rs` lines 95–104). -/
theorem binread_conversion_total_only_on_io :
    (∀ e, ntfsErrorFromBinread (BinreadError.Io e) = some (NtfsError.Io e)) ∧
    (∀ v : BinreadError, (∀ e, v ≠ BinreadError.Io e) →
      ntfsErrorFromBinread v = none) := by
  constructor
  · intro e
    rfl
  · intro v hv
    cases v with
    | Io e => exact absurd rfl (hv e)
    | BadMagic p => rfl
    | AssertFail p => rfl
    | Custom p => rfl
    | NoVariantMatch p => rfl
    | EnumErrors p => rfl

/-- C10 (witness): the conversion at a concrete I/O error and at a
concrete non-I/O binread error. -/
theorem binread_conversion_total_only_on_io_witness :
    ntfsErrorFromBinread (BinreadError.Io (IoError.base IoErrorKind.NotFound 2)) =
      some (NtfsError.Io (IoError.base IoErrorKind.NotFound 2)) ∧
    ntfsErrorFromBinread (BinreadError.BadMagic 5) = none :=
  ⟨binread_conversion_total_only_on_io.1 (IoError.base IoErrorKind.NotFound 2),
   binread_conversion_total_only_on_io.2 (BinreadError.BadMagic 5)
     (fun _ h => BinreadError.noConfusion h)⟩

/-- C7: requesting a typed structured value whose value region's byte
length differs from the type's expected fixed size fails with the
size-mismatch error carrying the expected and the actual lengths. -/
theorem structured_value_size_mismatch :
    ∀ (position : Nat) (ty : NtfsAttributeType) (expected : Nat) (value : List Nat),
      value.length ≠ expected →
      getStructuredValue position ty expected value =
        .error (.InvalidStructuredValueSize position ty expected value.length) := by
  intro position ty expected value h
  unfold getStructuredValue
  simp [h]

/-- C7 (witness): a structured value of declared size 8 requested from a
6-byte value region fails with expected 8, actual 6. -/
theorem structured_value_size_mismatch_witness :
    getStructuredValue 0 NtfsAttributeType.StandardInformation 8 [1, 2, 3, 4, 5, 6] =
      .error (.InvalidStructuredValueSize 0 NtfsAttributeType.StandardInformation 8 6) :=
  structured_value_size_mismatch 0 NtfsAttributeType.StandardInformation 8
    [1, 2, 3, 4, 5, 6] (by decide)

/-- C8: a lookup-by-type that exhausts the record's attribute sequence
without finding an attribute of the requested type fails with "attribute
not found", carrying the expected attribute type and the record's byte
position. -/
theorem attribute_not_found_when_exhausted :
    ∀ (recordPosition : Nat) (attributes : List NtfsAttribute) (ty : NtfsAttributeType),
      (∀ a ∈ attributes, a.ty ≠ ty) →
      findAttributeByType recordPosition attributes ty =
        .error (.AttributeNotFound recordPosition ty) := by
  intro recordPosition attributes ty h
  induction attributes with
  | nil => rfl
  | cons a rest ih =>
    have ha : a.ty ≠ ty := h a (List.mem_cons_self a rest)
    have hstep : findAttributeByType recordPosition (a :: rest) ty =
        findAttributeByType recordPosition rest ty := by
      show (if a.ty = ty then Except.ok a
        else findAttributeByType recordPosition rest ty) = _
      rw [if_neg ha]
    rw [hstep]
    exact ih (fun b hb => h b (List.mem_cons_of_mem a hb))

/-- C8 (witness): looking up a file-name attribute in a record holding
only a data attribute fails with attribute-not-found at the record's
position. -/
theorem attribute_not_found_when_exhausted_witness :
    findAttributeByType 1024
      [⟨NtfsAttributeType.Data, NtfsAttributeContent.resident []⟩]
      NtfsAttributeType.FileName =
      .error (.AttributeNotFound 1024 NtfsAttributeType.FileName) :=
  attribute_not_found_when_exhausted 1024
    [⟨NtfsAttributeType.Data, NtfsAttributeContent.resident []⟩]
    NtfsAttributeType.FileName (by decide)

/-- C9: index-record validation fails with "invalid index size", carrying
the expected maximum, the actual declared size and the byte position,
whenever the declared allocated size exceeds the physical capacity
available to the index record (stated for a record whose signature check
passes, since the signature is validated first). -/
theorem index_size_exceeds_capacity :
    ∀ (position : Nat) (signature : List Nat) (maximumSize allocatedSize : Nat),
      signature = indexRecordSignature →
      maximumSize < allocatedSize →
      validateIndexRecordHeader position signature maximumSize allocatedSize =
        .error (.InvalidNtfsIndexSize position maximumSize allocatedSize) := by
  intro position signature maximumSize allocatedSize hsig hsize
  subst hsig
  unfold validateIndexRecordHeader
  simp [hsize]

/-- C9 (witness): a correctly-signed index record declaring 8192
allocated bytes against a capacity of 4096 fails with the invalid-index-
size error. -/
theorem index_size_exceeds_capacity_witness :
    validateIndexRecordHeader 16384 [73, 78, 68, 88] 4096 8192 =
      .error (.InvalidNtfsIndexSize 16384 4096 8192) :=
  index_size_exceeds_capacity 16384 [73, 78, 68, 88] 4096 8192 rfl (by decide)

/-- C4: a data-run header whose run-length nibble or LCN-delta nibble
declares a byte width larger than 8 always makes decoding fail with the
invalid-byte-count error carrying the expected maximum 8, the offending
declared width, and the byte position of the header.  (The embedding is a
total function whose every byte access is bounds-checked via `List`
optional indexing, so it can neither panic nor read out of bounds; the
width check happens before any field byte is read.) -/
theorem data_run_header_byte_count_rejected :
    ∀ (bytes : List Nat) (pos : Nat) (previousLcn maxLcn : Int) (header : Nat),
      bytes[pos]? = some header → header ≠ 0 →
      (8 < header % 16 →
        decodeDataRunHeader bytes pos previousLcn maxLcn =
          .error (.InvalidByteCountInDataRunHeader pos 8 (header % 16))) ∧
      (header % 16 ≤ 8 → 8 < header / 16 % 16 →
        decodeDataRunHeader bytes pos previousLcn maxLcn =
          .error (.InvalidByteCountInDataRunHeader pos 8 (header / 16 % 16))) := by
  intro bytes pos previousLcn maxLcn header hget hne
  constructor
  · intro h1
    unfold decodeDataRunHeader
    rw [hget]
    simp [hne, h1]
  · intro h1 h2
    unfold decodeDataRunHeader
    rw [hget]
    simp [hne, Nat.not_lt.mpr h1, h2]

/-- C4 (witness): a header byte of 26 (run-length width 10) and a header
byte of 161 (run-length width 1, LCN-delta width 10) each fail with the
byte-count error reporting maximum 8 and actual 10 at position 0. -/
theorem data_run_header_byte_count_rejected_witness :
    decodeDataRunHeader [26] 0 0 1000 =
      .error (.InvalidByteCountInDataRunHeader 0 8 10) ∧
    decodeDataRunHeader [161] 0 0 1000 =
      .error (.InvalidByteCountInDataRunHeader 0 8 10) :=
  ⟨(data_run_header_byte_count_rejected [26] 0 0 1000 26 rfl (by decide)).1
      (by decide),
   (data_run_header_byte_count_rejected [161] 0 0 1000 161 rfl (by decide)).2
      (by decide) (by decide)⟩

/-- C5: during data-run decoding, when the sign-extended LCN delta (read
as a VCN-typed value) would make the running LCN negative, decoding fails
with "VCN cannot be added to previous LCN" carrying the offending VCN,
the previously accumulated LCN and the byte position of the header; when
it would exceed the volume's maximum representable LCN, decoding fails
with "LCN too big". -/
theorem data_run_lcn_accumulation_errors :
    ∀ (bytes : List Nat) (pos : Nat) (previousLcn maxLcn : Int)
      (header runLength raw : Nat),
      bytes[pos]? = some header → header ≠ 0 →
      header % 16 ≤ 8 → header / 16 % 16 ≤ 8 → header / 16 % 16 ≠ 0 →
      readUnsigned bytes (pos + 1) (header % 16) = some runLength →
      readUnsigned bytes (pos + 1 + header % 16) (header / 16 % 16) = some raw →
      (previousLcn + signExtend raw (header / 16 % 16) < 0 →
        decodeDataRunHeader bytes pos previousLcn maxLcn =
          .error (.InvalidVcnInDataRunHeader pos
            (signExtend raw (header / 16 % 16)) previousLcn)) ∧
      (0 ≤ previousLcn + signExtend raw (header / 16 % 16) →
       maxLcn < previousLcn + signExtend raw (header / 16 % 16) →
        decodeDataRunHeader bytes pos previousLcn maxLcn =
          .error (.LcnTooBig (previousLcn + signExtend raw (header / 16 % 16)))) := by
  intro bytes pos previousLcn maxLcn header runLength raw hget hne hlw hdw hdw0 hlen hraw
  constructor
  · intro hneg
    unfold decodeDataRunHeader
    rw [hget]
    simp [hne, Nat.not_lt.mpr hlw, Nat.not_lt.mpr hdw, hdw0, hlen, hraw,
      addLcnDelta, hneg]
  · intro hnn htoobig
    unfold decodeDataRunHeader
    rw [hget]
    simp [hne, Nat.not_lt.mpr hlw, Nat.not_lt.mpr hdw, hdw0, hlen, hraw,
      addLcnDelta, Int.not_lt.mpr hnn, htoobig]

/-- C5 (witness): the run `[17, 5, 133]` (1-byte length 5, 1-byte delta
`0x85` sign-extending to −123) applied to previous LCN 100 fails with the
VCN-cannot-be-added error carrying VCN −123, previous LCN 100, position 0;
the run `[17, 5, 127]` applied to previous LCN 0 under maximum LCN 50
fails with LCN-too-big carrying LCN 127. -/
theorem data_run_lcn_accumulation_errors_witness :
    decodeDataRunHeader [17, 5, 133] 0 100 1000 =
      .error (.InvalidVcnInDataRunHeader 0 (-123) 100) ∧
    decodeDataRunHeader [17, 5, 127] 0 0 50 =
      .error (.LcnTooBig 127) := by
  constructor
  · have h := (data_run_lcn_accumulation_errors [17, 5, 133] 0 100 1000 17 5 133
      rfl (by decide) (by decide) (by decide) (by decide) rfl rfl).1 (by decide)
    exact h.trans (congrArg Except.error (by decide))
  · have h := (data_run_lcn_accumulation_errors [17, 5, 127] 0 0 50 17 5 127
      rfl (by decide) (by decide) (by decide) (by decide) rfl rfl).2
      (by decide) (by decide)
    exact h.trans (congrArg Except.error (by decide))

/-- Helper: the verification pass, started at sector `start` with `n`
sectors to go, stops at the first mismatching sector and reports the
expected bytes, the bytes found, and the byte offset of the mismatch. -/
theorem verifyFixupLoop_first_mismatch (buffer : List Nat) (usn : Nat × Nat)
    (sectorSize : Nat) :
    ∀ (n k start : Nat) (ab : Nat × Nat), k < n →
      (∀ j, j < k → sectorLastTwo buffer sectorSize (start + j) = some usn) →
      sectorLastTwo buffer sectorSize (start + k) = some ab →
      ab ≠ usn →
      verifyFixupLoop buffer usn sectorSize start n =
        .error (.InvalidTwoByteSignature ((start + k + 1) * sectorSize - 2)
          [usn.1, usn.2] [ab.1, ab.2]) := by
  intro n
  induction n with
  | zero =>
    intro k start ab hk
    exact absurd hk (Nat.not_lt_zero k)
  | succ n ih =>
    intro k start ab hk hprev hcur hne
    cases k with
    | zero =>
      rw [Nat.add_zero] at hcur
      unfold verifyFixupLoop
      rw [hcur]
      simp [hne]
    | succ k =>
      have h0 : sectorLastTwo buffer sectorSize start = some usn := by
        have h := hprev 0 (Nat.succ_pos k)
        rwa [Nat.add_zero] at h
      have hrec := ih k (start + 1) ab (Nat.lt_of_succ_lt_succ hk)
        (fun j hj => by
          have h := hprev (j + 1) (Nat.succ_lt_succ hj)
          rwa [show start + (j + 1) = start + 1 + j by omega] at h)
        (by rwa [show start + (k + 1) = start + 1 + k by omega] at hcur) hne
      have hstep : verifyFixupLoop buffer usn sectorSize start (n + 1) =
          verifyFixupLoop buffer usn sectorSize (start + 1) n := by
        rw [verifyFixupLoop, h0]
        simp
      rw [hstep, hrec]
      rw [show start + 1 + k + 1 = start + (k + 1) + 1 by omega]

/-- C6: when fixup verification finds a sector whose last two bytes do not
equal the record's update sequence number (all earlier sectors matching),
it fails with the two-byte-signature-mismatch error reporting the expected
bytes, the actual two bytes found, and the byte offset of the mismatch —
and no repaired buffer is produced. -/
theorem fixup_two_byte_signature_mismatch :
    ∀ (buffer : List Nat) (usn : Nat × Nat) (usa : List (Nat × Nat))
      (sectorSize count k : Nat) (ab : Nat × Nat),
      k < count →
      (∀ j, j < k → sectorLastTwo buffer sectorSize j = some usn) →
      sectorLastTwo buffer sectorSize k = some ab →
      ab ≠ usn →
      applyFixups buffer usn usa sectorSize count =
        .error (.InvalidTwoByteSignature ((k + 1) * sectorSize - 2)
          [usn.1, usn.2] [ab.1, ab.2]) := by
  intro buffer usn usa sectorSize count k ab hk hprev hcur hne
  have h := verifyFixupLoop_first_mismatch buffer usn sectorSize count k 0 ab hk
    (fun j hj => by rw [Nat.zero_add]; exact hprev j hj)
    (by rwa [Nat.zero_add]) hne
  rw [Nat.zero_add] at h
  unfold applyFixups
  rw [h]

/-- C6 (witness): with sector size 4 and one sector, a buffer whose last
two bytes are `(9, 9)` against update sequence number `(1, 2)` fails with
the two-byte-signature error at byte offset 2, expected `[1, 2]`,
actual `[9, 9]`. -/
theorem fixup_two_byte_signature_mismatch_witness :
    applyFixups [0, 0, 9, 9] (1, 2) [(7, 8)] 4 1 =
      .error (.InvalidTwoByteSignature 2 [1, 2] [9, 9]) :=
  fixup_two_byte_signature_mismatch [0, 0, 9, 9] (1, 2) [(7, 8)] 4 1 0 (9, 9)
    (by decide) (fun j hj => absurd hj (Nat.not_lt_zero j)) rfl (by decide)

end NtfsSpec
